import Mathlib

/-!
Shallow embedding of the RankScore analysis pipeline (src/api.py): the parsed
document model, the signal extractors, the scorer, the history store and the
access-code store, together with theorems settling the specification claims.
-/

namespace RankScore

/-- One HTML attribute: name and value. -/
structure HAttr where
  name : String
  value : String
deriving DecidableEq, Repr

/-- One HTML element: tag name and attribute list. -/
structure Element where
  tag : String
  attrs : List HAttr
deriving DecidableEq, Repr

/-- Parsed document, as the flat element view the analyzed queries use. -/
structure Soup where
  elements : List Element
deriving DecidableEq, Repr

/-- find_all by tag name. -/
def Soup.find_all (soup : Soup) (tag : String) : List Element :=
  soup.elements.filter (fun e => e.tag == tag)

/-- Tag.has_attr: the attribute is present, empty value included. -/
def Element.has_attr (e : Element) (name : String) : Bool :=
  e.attrs.any (fun a => a.name == name)

/-- Attribute lookup, none when absent. -/
def Element.getAttr (e : Element) (name : String) : Option String :=
  (e.attrs.find? (fun a => a.name == name)).map HAttr.value

/-- soup.title: the first title element, none when absent. -/
def Soup.title (soup : Soup) : Option Element :=
  soup.elements.find? (fun e => e.tag == "title")

/-- analyze_accessibility (src/api.py lines 316-320): the images that have an
alt attribute are as many as all images. -/
def analyze_accessibility (soup : Soup) : Bool :=
  let images := soup.find_all "img"
  let images_with_alt := images.filter (fun img => img.has_attr "alt")
  images_with_alt.length == images.length

/-- Modelled from the spec sentence for C6: the count of images with a
NON-EMPTY alt attribute equals the count of all images. -/
def accessibility_nonempty_alt_spec (soup : Soup) : Bool :=
  let images := soup.find_all "img"
  let images_nonempty_alt :=
    images.filter (fun img => ((img.getAttr "alt").getD "") != "")
  images_nonempty_alt.length == images.length

/-- Outcome of the guarded fetch-and-parse performed inside a try block:
either some raised exception, or the parsed page. -/
inductive FetchOutcome where
  | failure
  | page (soup : Soup)
deriving DecidableEq, Repr

/-- analyze_lite_aeo (src/api.py lines 272-280): 0 when the fetch or parse
raises, otherwise 65 with a title element present and 50 without one. -/
def analyze_lite_aeo : FetchOutcome → Int
  | .failure => 0
  | .page soup => if soup.title.isSome then 65 else 50

/-- The metadata facts consumed by the scorer: title and description strings,
with the literal sentinel "Missing" marking absence. -/
structure Metadata where
  title : String
  description : String
deriving DecidableEq, Repr

/-- The header facts returned by analyze_headers. -/
structure Headers where
  h1_present : Bool
  h2_present : Bool
  h1_count : Nat
  h2_count : Nat
deriving DecidableEq, Repr

/-- The speed metrics record built by analyze_page_speed. -/
structure SpeedMetrics where
  total_time : ℚ
  time_to_first_byte : ℚ
  resource_count : Nat
  total_size : Nat
  resource_types : List (String × Nat)
  performance_score : Int
deriving DecidableEq, Repr

/-- The four category subscores of a score result. -/
structure Subscores where
  content_structure : Int
  technical : Int
  metadata : Int
  accessibility : Int
deriving DecidableEq, Repr

/-- The eight per-signal component scores of a score result. -/
structure ComponentScores where
  structured_data : Int
  faq : Int
  headers : Int
  title : Int
  speed : Int
  description : Int
  mobile : Int
  accessibility : Int
deriving DecidableEq, Repr

/-- The record returned by calculate_rankscore. -/
structure ScoreResult where
  total_score : Int
  subscores : Subscores
  component_scores : ComponentScores
deriving DecidableEq, Repr

/-- calculate_rankscore (src/api.py lines 371-400). -/
def calculate_rankscore (metadata : Metadata) (headers : Headers)
    (structured_data faq_present mobile_friendly accessibility : Bool)
    (speed_metrics : SpeedMetrics) : ScoreResult :=
  let structured_data_score : Int := if structured_data then 25 else 0
  let faq_score : Int := if faq_present then 20 else 0
  let header_score : Int := if headers.h1_present then 15 else 0
  let title_score : Int := if metadata.title != "Missing" then 10 else 0
  let speed_score : Int := if speed_metrics.performance_score ≥ 80 then 10 else 0
  let description_score : Int := if metadata.description != "Missing" then 8 else 0
  let mobile_score : Int := if mobile_friendly then 7 else 0
  let accessibility_score : Int := if accessibility then 5 else 0
  let total_score := structured_data_score + faq_score + header_score +
    title_score + speed_score + description_score + mobile_score + accessibility_score
  { total_score := total_score
    subscores :=
      { content_structure := structured_data_score + faq_score + header_score
        technical := speed_score + mobile_score
        metadata := title_score + description_score
        accessibility := accessibility_score }
    component_scores :=
      { structured_data := structured_data_score, faq := faq_score
        headers := header_score, title := title_score
        speed := speed_score, description := description_score
        mobile := mobile_score, accessibility := accessibility_score } }

/-- Runtime failures of the embedded Python fragments. -/
inductive PyFailure where
  | nameError (name : String)
  | typeErrorListPlusTuple
  | recursionError
  | programmingErrorBindingCount (supplied : Nat)
  | operationalErrorDatabaseLocked
deriving DecidableEq, Repr

/-- Name lookup against the local names in scope. -/
def lookupName (env : List String) (x : String) : Except PyFailure Unit :=
  if env.contains x then .ok () else .error (.nameError x)

/-- The local names bound in analyze_page_speed at the point where the
resources list comprehension is evaluated (src/api.py lines 335-339). -/
def pageSpeedLocals : List String :=
  ["url", "metrics", "start_time", "response", "ttfb", "soup"]

/-- The first generator iterable of the resources comprehension, which parses
as the sum of soup.find_all with src set and the pair built from link. Python
evaluates find_all, then must build the pair, which reads the name link —
unbound at this point, since link is only introduced by the comprehension
clause that follows — so the evaluation raises a NameError before any
resource is produced. Were link bound, adding the pair to the list would be
the next failure. -/
def resourcesFirstIterable (soup : Soup) : Except PyFailure (List Element) := do
  let _scripts := (soup.find_all "script").filter (fun e => e.has_attr "src")
  let _ ← lookupName pageSpeedLocals "link"
  .error .typeErrorListPlusTuple

/-- The resources list comprehension of analyze_page_speed. Its remaining
generator clauses never execute: evaluating the first iterable already
raises, so no pair is ever yielded. -/
def resourcesComprehension (soup : Soup) : Except PyFailure (List (String × String)) := do
  let _ ← resourcesFirstIterable soup
  .ok []

/-- Per-type resource counting of the aggregation loop. -/
def countTypes (resources : List (String × String)) : List (String × Nat) :=
  resources.foldl
    (fun acc rc =>
      if acc.any (fun p => p.1 == rc.2) then
        acc.map (fun p => if p.1 == rc.2 then (p.1, p.2 + 1) else p)
      else acc ++ [(rc.2, 1)])
    []

/-- The score computation block of analyze_page_speed (src/api.py lines
360-365): start at 100, subtract 20 for each threshold that fires, floor 0. -/
def performance_score_calc (ttfb_ms total_ms : ℚ) (resource_count total_size : Nat) : Int :=
  let s0 : Int := 100
  let s1 := if 200 < ttfb_ms then s0 - 20 else s0
  let s2 := if 3000 < total_ms then s1 - 20 else s1
  let s3 := if 50 < resource_count then s2 - 20 else s2
  let s4 := if 5000000 < total_size then s3 - 20 else s3
  max 0 s4

/-- analyze_page_speed (src/api.py lines 322-369). The wall-clock readings
and the content-length answers of the HEAD probes are parameters of the
embedding. The try body raises inside the resources comprehension, so the
except branch returns the all-zero fallback record; the ok branch keeps the
aggregation and scoring of the source for fidelity, though it is never
reached. -/
def analyze_page_speed (soup : Soup) (ttfb_ms : ℚ) (headSize : String → Nat)
    (total_ms : ℚ) : SpeedMetrics :=
  match resourcesComprehension soup with
  | .error _ =>
    { total_time := 0, time_to_first_byte := 0, resource_count := 0,
      total_size := 0, resource_types := [], performance_score := 0 }
  | .ok resources =>
    let resource_count := resources.length
    let total_size := (resources.map (fun rc => headSize rc.1)).sum
    { total_time := total_ms, time_to_first_byte := ttfb_ms,
      resource_count := resource_count, total_size := total_size,
      resource_types := countTypes resources,
      performance_score := performance_score_calc ttfb_ms total_ms resource_count total_size }

/-- One row of the access_codes table: email and code are UNIQUE columns,
used defaults to false. -/
structure AccessRow where
  email : String
  code : String
  used : Bool
deriving DecidableEq, Repr

/-- validate_access_code (src/api.py lines 134-139): the first row whose code
matches and whose used flag is clear, none otherwise. -/
def validate_access_code (user_code : String) (db : List AccessRow) : Option AccessRow :=
  db.find? (fun r => r.code == user_code && r.used == false)

/-- mark_code_as_used (src/api.py lines 141-146). The parameters argument of
the UPDATE is written as a parenthesised string, not a one-element tuple, and
sqlite3 iterates a string parameter sequence character by character: the
statement, which has a single placeholder, receives one binding per character
of the code and raises ProgrammingError whenever the code is not exactly one
character long. Only for a one-character code does the update itself run. -/
def mark_code_as_used (user_code : String) (db : List AccessRow) :
    Except PyFailure (List AccessRow) :=
  if user_code.length = 1 then
    .ok (db.map (fun r => if r.code == user_code then { r with used := true } else r))
  else
    .error (.programmingErrorBindingCount user_code.length)

/-- Errors an INSERT into access_codes can raise. -/
inductive InsertError where
  | integrityError
  | operationalErrorLocked
deriving DecidableEq, Repr

/-- One INSERT into access_codes from a freshly opened connection. When
another connection still holds the database write lock, the insert fails
with OperationalError (database is locked) once the busy timeout expires,
before any constraint is checked; otherwise a UNIQUE conflict on email or
code raises IntegrityError — which leaves the inserting connection inside
its aborted implicit transaction, so IT now holds the write lock until the
connection closes — and otherwise the row is inserted and committed.
Behaviour verified against CPython sqlite3. -/
def insert_access_code (locked : Bool) (db : List AccessRow) (email code : String) :
    Except InsertError (List AccessRow) :=
  if locked then .error .operationalErrorLocked
  else if db.any (fun r => r.email == email) || db.any (fun r => r.code == code) then
    .error .integrityError
  else .ok (db ++ [⟨email, code, false⟩])

/-- save_access_code (src/api.py lines 122-132). generate_unique_code is
modelled as a stream gen of draws, the i-th retry drawing gen i. locked
records whether an enclosing invocation holds the database write lock:
false at the outermost call, true for every nested retry, because the
retry runs inside the enclosing with-block whose connection sits in the
aborted implicit transaction left by the caught IntegrityError. Only
IntegrityError is caught and retried; OperationalError propagates
uncaught. fuel is the interpreter recursion limit, whose exhaustion is a
RecursionError. -/
def save_access_code (fuel : Nat) (gen : Nat → String) (i : Nat) (locked : Bool)
    (db : List AccessRow) (email : String) :
    Except PyFailure (String × List AccessRow) :=
  match fuel with
  | 0 => .error .recursionError
  | f + 1 =>
    match insert_access_code locked db email (gen i) with
    | .ok db2 => .ok (gen i, db2)
    | .error .integrityError => save_access_code f gen (i + 1) true db email
    | .error .operationalErrorLocked => .error .operationalErrorDatabaseLocked

/-- One row of the recommendations table. -/
structure RecRow where
  url : String
  creation_date : Int
  type : String
  description : String
  priority : Int
  points_potential : Int
  status : String
  implementation_date : Option Int
  notes : Option String
deriving DecidableEq, Repr

/-- One issue dictionary as passed to save_recommendations. -/
structure IssueRec where
  type : String
  message : String
  priority : Int
  points_available : Int
deriving DecidableEq, Repr

/-- The count the guard query of save_recommendations computes: pending rows
for the given url and type. -/
def pendingCount (store : List RecRow) (url ty : String) : Nat :=
  (store.filter (fun r => r.url == url && r.type == ty && r.status == "pending")).length

/-- One iteration of the save_recommendations loop: insert a pending row for the
issue unless a pending row with the same url and type already exists. -/
def recStep (now : Int) (url : String) (st : List RecRow) (rec : IssueRec) :
    List RecRow :=
  if pendingCount st url rec.type = 0 then
    st ++ [⟨url, now, rec.type, rec.message, rec.priority, rec.points_available,
            "pending", none, none⟩]
  else st

/-- save_recommendations (src/api.py lines 168-183): for each issue, insert a
pending row unless a pending row with the same url and type already exists. -/
def save_recommendations (now : Int) (url : String) (recs : List IssueRec)
    (store : List RecRow) : List RecRow :=
  recs.foldl (recStep now url) store

/-- At most one pending recommendation row per url and type pair. -/
def AtMostOnePending (store : List RecRow) : Prop :=
  ∀ u t, pendingCount store u t ≤ 1

/-- The ORDER BY comparison of the recommendations query of
get_historical_data: priority descending, then points_potential descending. -/
def recsQueryOrder (a b : RecRow) : Prop :=
  b.priority < a.priority ∨ (a.priority = b.priority ∧ b.points_potential ≤ a.points_potential)

instance : DecidableRel recsQueryOrder := fun a b =>
  inferInstanceAs (Decidable (_ ∨ _))

/-- Modelled from the claim for C5: most urgent first — lower priority number
first — with ties broken by higher potential points. -/
def claimUrgencyOrder (a b : RecRow) : Prop :=
  a.priority < b.priority ∨ (a.priority = b.priority ∧ b.points_potential ≤ a.points_potential)

instance : DecidableRel claimUrgencyOrder := fun a b =>
  inferInstanceAs (Decidable (_ ∨ _))

/-- The recommendations half of get_historical_data (src/api.py lines
203-207): the rows of the url, ordered by priority descending then
points_potential descending. -/
def get_historical_recs (store : List RecRow) (url : String) : List RecRow :=
  (store.filter (fun r => r.url == url)).insertionSort recsQueryOrder

/-- One row of the scans table. -/
structure ScanRow where
  url : String
  scan_date : Int
  total_score : Int
  content_structure_score : Int
  technical_score : Int
  metadata_score : Int
  accessibility_score : Int
  speed_score : Int
  structured_data_present : Bool
  faq_present : Bool
  mobile_friendly : Bool
deriving DecidableEq, Repr

/-- The row save_scan_results inserts for a scan of the url at time now. -/
def scanRowOf (now : Int) (url : String) (score_data : ScoreResult)
    (structured_data faq_present mobile_friendly : Bool)
    (speed_metrics : SpeedMetrics) : ScanRow :=
  { url := url, scan_date := now, total_score := score_data.total_score,
    content_structure_score := score_data.subscores.content_structure,
    technical_score := score_data.subscores.technical,
    metadata_score := score_data.subscores.metadata,
    accessibility_score := score_data.subscores.accessibility,
    speed_score := speed_metrics.performance_score,
    structured_data_present := structured_data,
    faq_present := faq_present,
    mobile_friendly := mobile_friendly }

/-- save_scan_results (src/api.py lines 148-166): a silent no-op when a row
for the url has a scan_date at most 60 seconds old, otherwise append the
row. Timestamps are seconds on one clock; the guard compares scan_date
against now minus one minute, inclusively. -/
def save_scan_results (now : Int) (url : String) (score_data : ScoreResult)
    (structured_data faq_present mobile_friendly : Bool)
    (speed_metrics : SpeedMetrics) (store : List ScanRow) : List ScanRow :=
  if 0 < (store.filter (fun r => r.url == url && decide (now - 60 ≤ r.scan_date))).length then
    store
  else
    store ++ [scanRowOf now url score_data structured_data faq_present
      mobile_friendly speed_metrics]

/-! ### Theorems settling the claims -/

/-- C1: for every SignalFacts input, calculate_rankscore gives each signal its fixed
point allocation — structured data 25, FAQ 20, H1 present 15, title present 10,
performance score at least 80 gives 10, description present 8, mobile-friendly 7,
accessibility 5 — the total score equals the sum of the eight component scores, it
stays between 0 and 100, and it is exactly 100 when every signal is positive. -/
theorem calculate_rankscore_correct (metadata : Metadata) (headers : Headers)
    (structured_data faq_present mobile_friendly accessibility : Bool)
    (speed_metrics : SpeedMetrics) (r : ScoreResult)
    (hr : r = calculate_rankscore metadata headers structured_data faq_present
      mobile_friendly accessibility speed_metrics) :
    r.component_scores.structured_data = (if structured_data then 25 else 0) ∧
    r.component_scores.faq = (if faq_present then 20 else 0) ∧
    r.component_scores.headers = (if headers.h1_present then 15 else 0) ∧
    r.component_scores.title = (if metadata.title != "Missing" then 10 else 0) ∧
    r.component_scores.speed = (if speed_metrics.performance_score ≥ 80 then 10 else 0) ∧
    r.component_scores.description = (if metadata.description != "Missing" then 8 else 0) ∧
    r.component_scores.mobile = (if mobile_friendly then 7 else 0) ∧
    r.component_scores.accessibility = (if accessibility then 5 else 0) ∧
    r.total_score = r.component_scores.structured_data + r.component_scores.faq +
      r.component_scores.headers + r.component_scores.title + r.component_scores.speed +
      r.component_scores.description + r.component_scores.mobile +
      r.component_scores.accessibility ∧
    0 ≤ r.total_score ∧ r.total_score ≤ 100 ∧
    ((structured_data = true ∧ faq_present = true ∧ headers.h1_present = true ∧
      metadata.title ≠ "Missing" ∧ 80 ≤ speed_metrics.performance_score ∧
      metadata.description ≠ "Missing" ∧ mobile_friendly = true ∧ accessibility = true) →
      r.total_score = 100) := by
  subst hr
  refine ⟨rfl, rfl, rfl, rfl, rfl, rfl, rfl, rfl, rfl, ?_, ?_, ?_⟩
  · simp only [calculate_rankscore]
    split_ifs <;> omega
  · simp only [calculate_rankscore]
    split_ifs <;> omega
  · rintro ⟨h1, h2, h3, h4, h5, h6, h7, h8⟩
    simp [calculate_rankscore, h1, h2, h3, h4, h5, h6, h7, h8, bne_iff_ne, ge_iff_le]

/-- Witness for C1 at a concrete all-positive fact set. -/
theorem calculate_rankscore_correct_witness :
    (calculate_rankscore ⟨"T", "D"⟩ ⟨true, true, 1, 1⟩ true true true true
      ⟨0, 0, 0, 0, [], 100⟩).total_score = 100 := by
  have h := calculate_rankscore_correct ⟨"T", "D"⟩ ⟨true, true, 1, 1⟩ true true true true
    ⟨0, 0, 0, 0, [], 100⟩ _ rfl
  exact h.2.2.2.2.2.2.2.2.2.2.2
    ⟨rfl, rfl, rfl, by decide, by decide, by decide, rfl, rfl⟩

/-- The access_codes table after one purchase by a@b.c with generated code ABCD1234. -/
def egAccessDb : List AccessRow := [⟨"a@b.c", "ABCD1234", false⟩]

/-- C2: single use fails on the code as written: validating the stored
8-character code succeeds, but mark_code_as_used raises the sqlite3
binding-count error (the string code is iterated into eight bindings for the
single placeholder), so the used flag never transitions from false to true and
the same code validates again — a second consume is silently possible rather
than rejected. -/
theorem access_code_never_marked_used :
    validate_access_code "ABCD1234" egAccessDb = some ⟨"a@b.c", "ABCD1234", false⟩ ∧
    mark_code_as_used "ABCD1234" egAccessDb =
      .error (.programmingErrorBindingCount 8) := by
  constructor <;> rfl

/-- A page whose only image carries an empty alt attribute. -/
def emptyAltSoup : Soup := ⟨[⟨"img", [⟨"alt", ""⟩]⟩]⟩

/-- C6 counterexample: on a page whose only image has an empty alt attribute,
analyze_accessibility is true although the count of images with a non-empty
alt attribute (zero) differs from the count of all images (one). -/
theorem analyze_accessibility_counterexample :
    analyze_accessibility emptyAltSoup = true ∧
    accessibility_nonempty_alt_spec emptyAltSoup = false := by
  constructor <;> rfl

/-- C6 amended: the accessibility signal is true exactly when every image
element has an alt attribute — presence of the attribute, empty values
included, not non-emptiness — and a document with zero images yields true. -/
theorem analyze_accessibility_iff (soup : Soup) :
    (analyze_accessibility soup = true ↔
      ∀ img ∈ soup.find_all "img", img.has_attr "alt" = true) ∧
    (soup.find_all "img" = [] → analyze_accessibility soup = true) := by
  have key : analyze_accessibility soup = true ↔
      ∀ img ∈ soup.find_all "img", img.has_attr "alt" = true := by
    unfold analyze_accessibility
    simp only [beq_iff_eq]
    constructor
    · intro h img hmem
      have hsub := List.filter_sublist (p := fun img => img.has_attr "alt")
        (l := soup.find_all "img")
      have heq := hsub.eq_of_length h
      have := List.filter_eq_self.mp heq img hmem
      simpa using this
    · intro h
      rw [List.filter_eq_self.mpr]
      intro a ha
      simpa using h a ha
  refine ⟨key, fun h => key.mpr ?_⟩
  rw [h]
  intro img hmem
  simp at hmem

/-- Witness for C6 amended: a page with zero images yields true. -/
theorem analyze_accessibility_iff_witness :
    analyze_accessibility ⟨[]⟩ = true :=
  (analyze_accessibility_iff ⟨[]⟩).2 rfl

/-- C10: analyze_lite_aeo takes exactly the three values 65, 50 and 0: 0 when the
fetch or parse raises, 65 when the parsed page has a title element, 50 when it has
none; and no signal other than title presence influences the result. -/
theorem analyze_lite_aeo_cases :
    (∀ f, analyze_lite_aeo f = 65 ∨ analyze_lite_aeo f = 50 ∨ analyze_lite_aeo f = 0) ∧
    analyze_lite_aeo .failure = 0 ∧
    (∀ soup, (Soup.title soup).isSome = true → analyze_lite_aeo (.page soup) = 65) ∧
    (∀ soup, Soup.title soup = none → analyze_lite_aeo (.page soup) = 50) ∧
    (∀ s1 s2, (Soup.title s1).isSome = (Soup.title s2).isSome →
      analyze_lite_aeo (.page s1) = analyze_lite_aeo (.page s2)) := by
  refine ⟨?_, rfl, ?_, ?_, ?_⟩
  · intro f
    cases f with
    | failure => right; right; rfl
    | page s =>
      by_cases h : (Soup.title s).isSome <;> simp [analyze_lite_aeo, h]
  · intro s h
    simp [analyze_lite_aeo, h]
  · intro s h
    simp [analyze_lite_aeo, h]
  · intro s1 s2 h
    simp [analyze_lite_aeo, h]

/-- A page with a (bare) title element. -/
def titledSoup : Soup := ⟨[⟨"title", []⟩]⟩

/-- Witness for C10 on a page with a title, a page without one, and a failed fetch. -/
theorem analyze_lite_aeo_cases_witness :
    analyze_lite_aeo (.page titledSoup) = 65 ∧ analyze_lite_aeo (.page ⟨[]⟩) = 50 :=
  ⟨analyze_lite_aeo_cases.2.2.1 titledSoup rfl,
   analyze_lite_aeo_cases.2.2.2.1 ⟨[]⟩ rfl⟩

/-- C9: for every input, analyze_page_speed returns the exception-fallback record —
performance score 0 and all timing, size and resource-count metrics 0 — because the
resources comprehension raises (NameError on link) before any aggregation, so no
caller ever observes a computed performance score. -/
theorem analyze_page_speed_always_fallback (soup : Soup) (ttfb_ms : ℚ)
    (headSize : String → Nat) (total_ms : ℚ) :
    analyze_page_speed soup ttfb_ms headSize total_ms =
      { total_time := 0, time_to_first_byte := 0, resource_count := 0,
        total_size := 0, resource_types := [], performance_score := 0 } := rfl

/-- C3: the claimed penalty rule is exactly what the scoring block of the source
computes — 100 minus 20 per fired threshold, floored at 0 — but analyze_page_speed
reports performance score 0 on every input while that rule, applied to the all-zero
metrics actually returned, would give 100: the scoring block is never reached. -/
theorem performance_score_divergence :
    (∀ ttfb_ms total_ms rc ts, performance_score_calc ttfb_ms total_ms rc ts =
      max 0 (100 - ((if 200 < ttfb_ms then (20 : Int) else 0) +
        (if 3000 < total_ms then 20 else 0) + (if 50 < rc then 20 else 0) +
        (if 5000000 < ts then 20 else 0)))) ∧
    (analyze_page_speed ⟨[]⟩ 100 (fun _ => 0) 100).performance_score = 0 ∧
    performance_score_calc 0 0 0 0 = 100 := by
  refine ⟨?_, rfl, rfl⟩
  intro a b c d
  simp only [performance_score_calc]
  split_ifs <;> rfl

/-- C4: a uniqueness collision is not survivable, contrary to the claimed
regenerate-and-retry: once the write lock is held by an enclosing invocation,
every retry fails immediately with the uncaught OperationalError (database is
locked); concretely, a purchase with the already-stored email a@b.c fails that
way at recursion depth 2 even though the generator keeps drawing the unused
code BBBBBBBB, and so does a purchase with the fresh email x@y.z whose first
drawn code ABCD1234 collides with the stored one, even though the second
draw would be fresh; only a first insert with no collision returns a code. -/
theorem save_access_code_conflict_fails :
    (∀ fuel gen i db email,
      save_access_code (fuel + 1) gen i true db email =
        .error .operationalErrorDatabaseLocked) ∧
    save_access_code 1000 (fun _ => "BBBBBBBB") 0 false egAccessDb "a@b.c" =
      .error .operationalErrorDatabaseLocked ∧
    save_access_code 1000 (fun n => if n = 0 then "ABCD1234" else "BBBBBBBB") 0 false
        egAccessDb "x@y.z" =
      .error .operationalErrorDatabaseLocked ∧
    save_access_code 1000 (fun _ => "FFFFFFFF") 0 false egAccessDb "p@q.r" =
      .ok ("FFFFFFFF", egAccessDb ++ [⟨"p@q.r", "FFFFFFFF", false⟩]) := by
  refine ⟨fun fuel gen i db email => rfl, rfl, rfl, rfl⟩

/-- A pending urgent recommendation (priority 1, lower number means more urgent). -/
def urgentRec : RecRow :=
  ⟨"u", 0, "title", "Add a descriptive title tag", 1, 10, "pending", none, none⟩

/-- A pending less urgent recommendation (priority 3). -/
def laterRec : RecRow :=
  ⟨"u", 0, "structured_data", "Implement structured data", 3, 10, "pending", none, none⟩

/-- C5 counterexample: with one priority-1 and one priority-3 recommendation stored
for the url, the query returns the priority-3 row first — ORDER BY priority
descending puts the LEAST urgent row first under the lower-is-more-urgent
convention — while the claimed most-urgent-first order puts the priority-1 row
first. -/
theorem get_historical_recs_counterexample :
    get_historical_recs [urgentRec, laterRec] "u" = [laterRec, urgentRec] ∧
    List.insertionSort claimUrgencyOrder [urgentRec, laterRec] =
      [urgentRec, laterRec] ∧
    ([laterRec, urgentRec] : List RecRow) ≠ [urgentRec, laterRec] := by
  refine ⟨?_, ?_, by decide⟩ <;> rfl

instance : IsTotal RecRow recsQueryOrder :=
  ⟨fun a b => by unfold recsQueryOrder; omega⟩

instance : IsTrans RecRow recsQueryOrder :=
  ⟨fun a b c hab hbc => by unfold recsQueryOrder at *; omega⟩

/-- C5 amended: get_historical_recs returns exactly the stored recommendations of
the url, ordered by DESCENDING numeric priority — least urgent first, since a
lower number means more urgent — with ties broken by descending potential
points. -/
theorem get_historical_recs_sorted (store : List RecRow) (url : String) :
    (get_historical_recs store url).Sorted recsQueryOrder ∧
    (get_historical_recs store url).Perm (store.filter (fun r => r.url == url)) :=
  ⟨List.sorted_insertionSort recsQueryOrder _,
   List.perm_insertionSort recsQueryOrder _⟩

/-- Appending one row changes a pending count by the indicator of the row. -/
theorem pendingCount_append (store : List RecRow) (row : RecRow) (u t : String) :
    pendingCount (store ++ [row]) u t =
      pendingCount store u t +
        (if (row.url == u && row.type == t && row.status == "pending") = true
          then 1 else 0) := by
  unfold pendingCount
  rw [List.filter_append, List.length_append, List.filter_singleton]
  cases h : (row.url == u && row.type == t && row.status == "pending") <;> simp [h]

/-- One loop iteration never decreases a pending count. -/
theorem pendingCount_recStep_le (now : Int) (url : String) (st : List RecRow)
    (rec : IssueRec) (u t : String) :
    pendingCount st u t ≤ pendingCount (recStep now url st rec) u t := by
  unfold recStep
  split_ifs with h
  · rw [pendingCount_append]
    omega
  · exact Nat.le_refl _

/-- One loop iteration preserves the at-most-one-pending invariant. -/
theorem recStep_inv (now : Int) (url : String) (st : List RecRow) (rec : IssueRec)
    (h : AtMostOnePending st) : AtMostOnePending (recStep now url st rec) := by
  intro u t
  unfold recStep
  split_ifs with h0
  · rw [pendingCount_append]
    by_cases hm : ((url : String) == u && rec.type == t && "pending" == "pending") = true
    · simp only [beq_iff_eq, Bool.and_eq_true] at hm
      obtain ⟨⟨hu, ht⟩, -⟩ := hm
      subst hu
      subst ht
      simp only [beq_self_eq_true, Bool.and_self, if_true]
      omega
    · have : pendingCount st u t ≤ 1 := h u t
      rw [if_neg hm]
      omega
  · exact h u t

/-- The whole loop never decreases a pending count. -/
theorem pendingCount_foldl_le (now : Int) (url : String) (recs : List IssueRec)
    (st : List RecRow) (u t : String) :
    pendingCount st u t ≤ pendingCount (List.foldl (recStep now url) st recs) u t := by
  induction recs generalizing st with
  | nil => exact Nat.le_refl _
  | cons r rs ih =>
    rw [List.foldl_cons]
    exact Nat.le_trans (pendingCount_recStep_le now url st r u t) (ih _)

/-- After the loop, every listed issue has a pending row for its url and type. -/
theorem pendingCount_pos_after (now : Int) (url : String) (recs : List IssueRec)
    (st : List RecRow) (rec : IssueRec) (hmem : rec ∈ recs) :
    1 ≤ pendingCount (List.foldl (recStep now url) st recs) url rec.type := by
  induction recs generalizing st with
  | nil => cases hmem
  | cons r rs ih =>
    rw [List.foldl_cons]
    rcases List.mem_cons.mp hmem with heq | htail
    · subst heq
      have h1 : 1 ≤ pendingCount (recStep now url st rec) url rec.type := by
        unfold recStep
        split_ifs with h0
        · rw [pendingCount_append]
          simp only [beq_self_eq_true, Bool.and_self, if_true]
          omega
        · omega
      exact Nat.le_trans h1 (pendingCount_foldl_le now url rs _ url rec.type)
    · exact ih _ htail

/-- When every listed issue already has a pending row, the loop stores nothing. -/
theorem recs_foldl_noop (now : Int) (url : String) (recs : List IssueRec)
    (st : List RecRow) (h : ∀ rec ∈ recs, pendingCount st url rec.type ≠ 0) :
    List.foldl (recStep now url) st recs = st := by
  induction recs with
  | nil => rfl
  | cons r rs ih =>
    rw [List.foldl_cons]
    have hstep : recStep now url st r = st := by
      unfold recStep
      rw [if_neg (h r (List.mem_cons_self r rs))]
    rw [hstep]
    exact ih (fun rec hm => h rec (List.mem_cons_of_mem _ hm))

/-- C7: the history store keeps at most one pending recommendation per url and
type pair — save_recommendations inserts an issue only when no pending row with
the same url and type exists — and a second call with an identical issue list
and no status changes in between creates no duplicate pending rows: it returns
the store unchanged. -/
theorem save_recommendations_dedup :
    (∀ store now url recs, AtMostOnePending store →
      AtMostOnePending (save_recommendations now url recs store)) ∧
    (∀ store now now2 url recs,
      save_recommendations now2 url recs (save_recommendations now url recs store) =
        save_recommendations now url recs store) := by
  constructor
  · intro store now url recs h
    unfold save_recommendations
    induction recs generalizing store with
    | nil => exact h
    | cons r rs ih =>
      rw [List.foldl_cons]
      exact ih _ (recStep_inv now url store r h)
  · intro store now now2 url recs
    unfold save_recommendations
    apply recs_foldl_noop
    intro rec hmem
    have := pendingCount_pos_after now url recs store rec hmem
    omega

/-- Witness for C7 at a concrete empty store and one-issue list. -/
theorem save_recommendations_dedup_witness :
    AtMostOnePending (save_recommendations 5 "u"
      [⟨"title", "Add a descriptive title tag", 1, 10⟩] []) ∧
    save_recommendations 6 "u" [⟨"title", "Add a descriptive title tag", 1, 10⟩]
        (save_recommendations 5 "u"
          [⟨"title", "Add a descriptive title tag", 1, 10⟩] []) =
      save_recommendations 5 "u" [⟨"title", "Add a descriptive title tag", 1, 10⟩] [] :=
  ⟨save_recommendations_dedup.1 [] 5 "u" _ (fun u t => by simp [pendingCount]),
   save_recommendations_dedup.2 [] 5 6 "u" _⟩

/-- A filter by a conjunction is empty whenever the filter by the first conjunct is. -/
theorem scan_filter_and_nil {store : List ScanRow} {p q : ScanRow → Bool}
    (h : store.filter p = []) : store.filter (fun r => p r && q r) = [] := by
  rw [List.filter_eq_nil_iff] at h ⊢
  intro r hr
  have hp := h r hr
  cases hv : p r with
  | false => simp [hv]
  | true => exact absurd hv hp

/-- Filtering past an appended singleton. -/
theorem scan_filter_append_single (store : List ScanRow) (row : ScanRow)
    (p : ScanRow → Bool) :
    (store ++ [row]).filter p =
      store.filter p ++ (if p row = true then [row] else []) := by
  rw [List.filter_append, List.filter_singleton]
  cases h : p row <;> simp [h]

/-- With an empty debounce guard, save_scan_results appends the row. -/
theorem save_scan_results_appends (now : Int) (url : String) (sd : ScoreResult)
    (b1 b2 b3 : Bool) (sp : SpeedMetrics) (store : List ScanRow)
    (hguard : store.filter
      (fun r => r.url == url && decide (now - 60 ≤ r.scan_date)) = []) :
    save_scan_results now url sd b1 b2 b3 sp store =
      store ++ [scanRowOf now url sd b1 b2 b3 sp] := by
  unfold save_scan_results
  rw [hguard]
  simp

/-- With a recent row in the debounce guard, save_scan_results is a no-op. -/
theorem save_scan_results_noop (now : Int) (url : String) (sd : ScoreResult)
    (b1 b2 b3 : Bool) (sp : SpeedMetrics) (store : List ScanRow)
    (hguard : 0 < (store.filter
      (fun r => r.url == url && decide (now - 60 ≤ r.scan_date))).length) :
    save_scan_results now url sd b1 b2 b3 sp store = store := by
  unfold save_scan_results
  rw [if_pos hguard]

/-- C8: recordScan debounces per url: starting from a store with no rows for the
url, a first call stores one row; a second call within 60 seconds of it stores
nothing (silent no-op, still exactly one row for the url), while a call more
than 60 seconds later appends a second row. -/
theorem save_scan_results_debounce (store : List ScanRow) (t t2 : Int) (url : String)
    (sd sd2 : ScoreResult) (b1 b2 b3 c1 c2 c3 : Bool) (sp sp2 : SpeedMetrics)
    (hnone : store.filter (fun r => r.url == url) = []) :
    ((save_scan_results t url sd b1 b2 b3 sp store).filter
      (fun r => r.url == url)).length = 1 ∧
    (t2 - t ≤ 60 →
      ((save_scan_results t2 url sd2 c1 c2 c3 sp2
          (save_scan_results t url sd b1 b2 b3 sp store)).filter
        (fun r => r.url == url)).length = 1) ∧
    (60 < t2 - t →
      ((save_scan_results t2 url sd2 c1 c2 c3 sp2
          (save_scan_results t url sd b1 b2 b3 sp store)).filter
        (fun r => r.url == url)).length = 2) := by
  have hfirst := save_scan_results_appends t url sd b1 b2 b3 sp store
    (scan_filter_and_nil hnone)
  have hrowurl : ((scanRowOf t url sd b1 b2 b3 sp).url == url) = true := by
    simp [scanRowOf]
  have hs1 : ((save_scan_results t url sd b1 b2 b3 sp store).filter
      (fun r => r.url == url)) = [scanRowOf t url sd b1 b2 b3 sp] := by
    rw [hfirst, scan_filter_append_single, hnone, if_pos hrowurl]
    rfl
  refine ⟨by rw [hs1]; rfl, ?_, ?_⟩
  · intro h60
    have hdate : (decide (t2 - 60 ≤ (scanRowOf t url sd b1 b2 b3 sp).scan_date)) = true := by
      simp [scanRowOf]
      omega
    have hguard : 0 < ((save_scan_results t url sd b1 b2 b3 sp store).filter
        (fun r => r.url == url &&
          decide (t2 - 60 ≤ r.scan_date))).length := by
      rw [hfirst, scan_filter_append_single, scan_filter_and_nil hnone,
        if_pos (by rw [hrowurl, hdate]; rfl)]
      simp
    rw [save_scan_results_noop t2 url sd2 c1 c2 c3 sp2 _ hguard, hs1]
    rfl
  · intro hgt
    have hdate : (decide (t2 - 60 ≤ (scanRowOf t url sd b1 b2 b3 sp).scan_date)) = false := by
      simp [scanRowOf]
      omega
    have hguard : ((save_scan_results t url sd b1 b2 b3 sp store).filter
        (fun r => r.url == url && decide (t2 - 60 ≤ r.scan_date))) = [] := by
      rw [hfirst, scan_filter_append_single, scan_filter_and_nil hnone,
        if_neg (by rw [hrowurl, hdate]; simp)]
      rfl
    rw [save_scan_results_appends t2 url sd2 c1 c2 c3 sp2 _ hguard,
      scan_filter_append_single, hs1,
      if_pos (by simp [scanRowOf])]
    rfl

/-- A concrete score result for the witnesses. -/
def egScore : ScoreResult := ⟨45, ⟨15, 17, 8, 5⟩, ⟨0, 0, 15, 10, 10, 8, 7, 5⟩⟩

/-- A concrete speed metrics record for the witnesses. -/
def egSpeed : SpeedMetrics := ⟨0, 0, 0, 0, [], 0⟩

/-- Witness for C8: a second scan 30 seconds later leaves one row, one 100
seconds later leaves two. -/
theorem save_scan_results_debounce_witness :
    ((save_scan_results 30 "u" egScore true true true egSpeed
        (save_scan_results 0 "u" egScore true true true egSpeed [])).filter
      (fun r => r.url == "u")).length = 1 ∧
    ((save_scan_results 100 "u" egScore true true true egSpeed
        (save_scan_results 0 "u" egScore true true true egSpeed [])).filter
      (fun r => r.url == "u")).length = 2 :=
  ⟨(save_scan_results_debounce [] 0 30 "u" egScore egScore true true true true true true
      egSpeed egSpeed rfl).2.1 (by decide),
   (save_scan_results_debounce [] 0 100 "u" egScore egScore true true true true true true
      egSpeed egSpeed rfl).2.2 (by decide)⟩

end RankScore
